import Mathlib

/-!
Verification of `server.py` from the boardgame_helper repository: a shallow
embedding of the WebRTC demo server's core logic (the `VideoTrack.recv`
frame-processing path, the snapshot throttle-and-save logic, the data-channel
echo handler, and the `offer` signaling handler with its process-wide `pcs`
registry), together with theorems settling the specification's claims.

Modelling conventions:
- Python wall-clock readings (`time.time()`) are `Int` time values; every
  distinct call site of `time.time()` is a distinct input of the embedding.
- `datetime.now()` values are a `DateTime` record of calendar fields.
- Decoded pixel buffers (`frame.to_ndarray(format='bgr24')`) are `List Nat`.
- The OpenCV filter bodies (`cv2.Canny`-based edge detection and the
  `cv2.warpAffine` rotation) are external library calls outside the
  repository; the embedding is parametric in them (`cannyF`, `rotateF`), so
  every theorem holds for arbitrary filter behaviour.
- Python strings are `String`; in the data-channel handler, where we reason
  about prefixes and remainders, they are `List Char`.
-/

/-- A decoded video frame as handed to `VideoTrack.recv`: pixel buffer,
presentation timestamp `pts`, rational `time_base` (numerator, denominator),
and the library-derived presentation time `frame.time` used by the rotate
transform's angle. -/
structure Frame where
  data : List Nat
  pts : Int
  time_base : Int × Int
  time : Int
  deriving Repr, DecidableEq

/-- The frame-transform part of `VideoTrack.recv` (server.py lines 47-81):
`edges` rebuilds a frame from the Canny edge map and copies `pts`/`time_base`
from the input; `rotate` rebuilds from the rotated buffer likewise; every
other selector string falls into the `else` branch and returns the input
frame unchanged. `cannyF` and `rotateF` stand for the external OpenCV calls;
`rotateF` receives `frame.time`, which determines the rotation angle. -/
def apply (cannyF : List Nat → List Nat) (rotateF : Int → List Nat → List Nat)
    (frame : Frame) (transform : String) : Frame :=
  if transform = "edges" then
    { data := cannyF frame.data
      pts := frame.pts, time_base := frame.time_base, time := frame.time }
  else if transform = "rotate" then
    { data := rotateF frame.time frame.data
      pts := frame.pts, time_base := frame.time_base, time := frame.time }
  else
    frame

/-- Mutable per-track state of a `VideoTrack` (server.py `__init__`,
lines 34-40): the transform selector string, the save interval (default 60
seconds), the nullable last-save wall-clock time, and the client IP used in
snapshot filenames. -/
structure VideoTrackState where
  transform : String
  save_interval_s : Int := 60
  last_save_time : Option Int := none
  client_ip : Option String := none
  deriving Repr, DecidableEq

/-- Calendar fields of a `datetime.now()` reading. -/
structure DateTime where
  year : Nat
  month : Nat
  day : Nat
  hour : Nat
  minute : Nat
  second : Nat
  deriving Repr, DecidableEq

/-- Zero-padded two-digit decimal field, as produced by the `%m`, `%d`,
`%H`, `%M`, `%S` strftime directives (their values are below 100). -/
def pad2 (n : Nat) : String :=
  if n < 10 then "0" ++ toString n else toString n

/-- `datetime.strftime(d, '%y%m%d_%H%M%S')` (server.py line 90): `%y` is the
year modulo 100 zero-padded to two digits, followed by month, day, an
underscore, hour, minute, second. -/
def strftime_yymmdd_hhmmss (d : DateTime) : String :=
  pad2 (d.year % 100) ++ pad2 d.month ++ pad2 d.day ++ "_" ++
    pad2 d.hour ++ pad2 d.minute ++ pad2 d.second

/-- Python `str.replace('.','-')`: a character-wise map since both pattern
and replacement are single characters; modelled on the underlying character
list of the string. -/
def replaceDotDash (s : String) : String :=
  ⟨s.data.map (fun c => if c = '.' then '-' else c)⟩

/-- The snapshot output directory (server.py line 20, `ROOT`-relative). -/
def data_dir : String := "data"

/-- Module-level directory setup (server.py lines 21-22): create `data_dir`
if absent. The filesystem is modelled as the list of existing directories. -/
def ensureDataDir (fs : List String) : List String :=
  if data_dir ∈ fs then fs else fs ++ [data_dir]

/-- The snapshot filename built in `VideoTrack.recv` (server.py lines 86-91):
client IP with dots replaced by dashes plus an underscore (the whole segment
empty when the IP is unknown), then the strftime timestamp, then `.jpg`,
joined under `data_dir`. -/
def snapshotPath (ip : Option String) (d : DateTime) : String :=
  data_dir ++ "/" ++
    ((match ip with
      | none => ""
      | some s => replaceDotDash s ++ "_") ++
     strftime_yymmdd_hhmmss d ++ ".jpg")

/-- Result of one `VideoTrack.recv` call: the frame returned to the peer,
the updated track state, and the snapshot write performed, if any, as the
written path and pixel buffer. -/
structure RecvOut where
  ret : Frame
  st : VideoTrackState
  saved : Option (String × List Nat)
  deriving Repr, DecidableEq

/-- One call of `VideoTrack.recv` (server.py lines 44-104) on an arrived
`frame`. `tCheck` is the `time.time()` reading tested against the interval
(line 84), `dtNow` the `datetime.now()` reading used for the filename
(line 90), and `tRecord` the second `time.time()` reading stored into
`last_save_time` after `cv2.imwrite` returns (line 102). The transform
branches compute `ret`; the save branch fires when there is no previous save
time or `tCheck - last_save_time ≥ save_interval_s`, and writes the
*original* frame's decoded buffer (line 97 re-reads `frame`, not `ret`). -/
def recv (cannyF : List Nat → List Nat) (rotateF : Int → List Nat → List Nat)
    (s : VideoTrackState) (frame : Frame)
    (tCheck : Int) (dtNow : DateTime) (tRecord : Int) : RecvOut :=
  let ret := apply cannyF rotateF frame s.transform
  let doSave :=
    match s.last_save_time with
    | none => true
    | some t => decide (tCheck - t ≥ s.save_interval_s)
  if doSave then
    { ret := ret
      st := { s with last_save_time := some tRecord }
      saved := some (snapshotPath s.client_ip dtNow, frame.data) }
  else
    { ret := ret, st := s, saved := none }

/-- C4 -- For every input frame and every transform selector (in particular
`none`, `edges` and `rotate`), the frame produced by the transform pipeline
carries exactly the input frame's `pts` and `time_base`; timing is never
re-derived from the filtered output. -/
theorem apply_preserves_pts_time_base
    (cannyF : List Nat → List Nat) (rotateF : Int → List Nat → List Nat)
    (frame : Frame) (transform : String) :
    (apply cannyF rotateF frame transform).pts = frame.pts ∧
    (apply cannyF rotateF frame transform).time_base = frame.time_base := by
  unfold apply
  split
  · exact ⟨rfl, rfl⟩
  · split
    · exact ⟨rfl, rfl⟩
    · exact ⟨rfl, rfl⟩

/-- C5 -- Applying the selector `"none"` returns the input frame
bit-identical (same pixel data, timestamp and time-base), and every selector
outside the recognized set `{none, edges, rotate}` is treated exactly as
`"none"`: the input frame is returned unchanged and no error is raised. -/
theorem apply_none_id
    (cannyF : List Nat → List Nat) (rotateF : Int → List Nat → List Nat)
    (frame : Frame) :
    apply cannyF rotateF frame "none" = frame ∧
    ∀ t : String, t ≠ "edges" → t ≠ "rotate" →
      apply cannyF rotateF frame t = frame := by
  constructor
  · unfold apply
    simp
  · intro t ht he
    unfold apply
    simp [ht, he]

/-- Witness for C5 at a concrete unrecognized selector. -/
theorem apply_none_id_witness :
    apply id (fun _ l => l) ⟨[1, 2, 3], 5, (1, 30), 0⟩ "none" = ⟨[1, 2, 3], 5, (1, 30), 0⟩ ∧
    apply id (fun _ l => l) ⟨[1, 2, 3], 5, (1, 30), 0⟩ "blur" = ⟨[1, 2, 3], 5, (1, 30), 0⟩ := by
  refine ⟨(apply_none_id id (fun _ l => l) ⟨[1, 2, 3], 5, (1, 30), 0⟩).1, ?_⟩
  exact (apply_none_id id (fun _ l => l) ⟨[1, 2, 3], 5, (1, 30), 0⟩).2 "blur"
    (by decide) (by decide)

/-- Iterated `recv` over a list of simulated frame-arrival times, starting
from state `s`: each arrival at time `t` runs one `recv` call in which both
`time.time()` readings return `t` (processing is instantaneous in simulated
time) and the state is threaded to the next arrival. Returns the arrival
times at which a snapshot was captured. -/
def captureTimes (cannyF : List Nat → List Nat)
    (rotateF : Int → List Nat → List Nat) (frame : Frame) (dt : DateTime)
    (s : VideoTrackState) : List Int → List Int
  | [] => []
  | t :: ts =>
    let o := recv cannyF rotateF s frame t dt t
    match o.saved with
    | some _ => t :: captureTimes cannyF rotateF frame dt o.st ts
    | none => captureTimes cannyF rotateF frame dt o.st ts

/-- The greedy capture rule in the words of the specification, for
comparison with the behaviour embedded from the source: capture on the first
call (no prior capture), and on a later call at time `t` exactly when
`t - lastCapture ≥ I`, updating the last-capture time on each capture. -/
def specGreedy (I : Int) (last : Option Int) : List Int → List Int
  | [] => []
  | t :: ts =>
    match last with
    | none => t :: specGreedy I (some t) ts
    | some l =>
      if t - l ≥ I then t :: specGreedy I (some t) ts
      else specGreedy I (some l) ts

theorem captureTimes_eq_specGreedy (cannyF : List Nat → List Nat)
    (rotateF : Int → List Nat → List Nat) (frame : Frame) (dt : DateTime) :
    ∀ (ts : List Int) (s : VideoTrackState),
      captureTimes cannyF rotateF frame dt s ts =
        specGreedy s.save_interval_s s.last_save_time ts := by
  intro ts
  induction ts with
  | nil => intro s; rfl
  | cons t ts ih =>
    intro s
    cases h : s.last_save_time with
    | none => simp [captureTimes, recv, h, specGreedy, ih]
    | some l =>
      by_cases hge : t - l ≥ s.save_interval_s
      · simp [captureTimes, recv, h, specGreedy, hge, ih]
      · simp [captureTimes, recv, h, specGreedy, hge, ih]

/-- C2 -- Starting from a fresh track state with configured interval `I`, a
sequence of frame arrivals at strictly increasing simulated times captures on
the first call and thereafter exactly when the arrival time minus the
last-capture time is at least `I`, greedily left-to-right (the source
behaviour `captureTimes` coincides with the spec's greedy rule `specGreedy`);
in particular with `I = 60` and arrivals at `0, 10, 61, 65, 130` the captures
happen at `0, 61, 130` only. -/
theorem snapshotThrottler_greedy (cannyF : List Nat → List Nat)
    (rotateF : Int → List Nat → List Nat) (frame : Frame) (dt : DateTime)
    (transform : String) (ip : Option String) (I : Int) (times : List Int)
    (_hmono : List.Chain' (· < ·) times) :
    captureTimes cannyF rotateF frame dt
      { transform := transform, save_interval_s := I,
        last_save_time := none, client_ip := ip } times =
      specGreedy I none times ∧
    captureTimes cannyF rotateF frame dt
      { transform := transform, save_interval_s := 60,
        last_save_time := none, client_ip := ip } [0, 10, 61, 65, 130] =
      [0, 61, 130] := by
  constructor
  · exact captureTimes_eq_specGreedy cannyF rotateF frame dt times _
  · rw [captureTimes_eq_specGreedy cannyF rotateF frame dt]
    show specGreedy 60 none [0, 10, 61, 65, 130] = [0, 61, 130]
    decide

/-- Witness for C2 at concrete inputs. -/
theorem snapshotThrottler_greedy_witness :
    captureTimes id (fun _ l => l) ⟨[0], 0, (1, 30), 0⟩ ⟨2026, 1, 2, 3, 4, 5⟩
      { transform := "none", save_interval_s := 60,
        last_save_time := none, client_ip := none } [0, 10, 61, 65, 130] =
      specGreedy 60 none [0, 10, 61, 65, 130] :=
  (snapshotThrottler_greedy id (fun _ l => l) ⟨[0], 0, (1, 30), 0⟩
    ⟨2026, 1, 2, 3, 4, 5⟩ "none" none 60 [0, 10, 61, 65, 130]
    (by norm_num [List.chain'_cons])).1

/-- C3 -- On every `recv` call that takes a snapshot, the pixel buffer
written to disk is the original pre-transform decoded frame (`frame.data`),
while the frame returned for forwarding is the transformed one
(`apply cannyF rotateF frame s.transform`). -/
theorem recv_snapshot_original_forward_transformed
    (cannyF : List Nat → List Nat) (rotateF : Int → List Nat → List Nat)
    (s : VideoTrackState) (frame : Frame) (tCheck : Int) (dtNow : DateTime)
    (tRecord : Int) (p : String) (img : List Nat)
    (h : (recv cannyF rotateF s frame tCheck dtNow tRecord).saved =
      some (p, img)) :
    img = frame.data ∧
    (recv cannyF rotateF s frame tCheck dtNow tRecord).ret =
      apply cannyF rotateF frame s.transform := by
  refine ⟨?_, ?_⟩
  · simp only [recv] at h
    split at h
    · exact (((Prod.mk.injEq _ _ _ _).mp (Option.some.inj h)).2).symm
    · simp at h
  · simp only [recv]
    split <;> rfl

/-- Witness for C3 at concrete inputs: a fresh state captures, the written
buffer is the original frame's, and the returned frame is the transformed
one. -/
theorem recv_snapshot_original_forward_transformed_witness :
    [7, 8] = (⟨[7, 8], 1, (1, 30), 2⟩ : Frame).data ∧
    (recv id (fun _ l => l)
      { transform := "none", save_interval_s := 60,
        last_save_time := none, client_ip := none }
      ⟨[7, 8], 1, (1, 30), 2⟩ 0 ⟨2026, 1, 2, 3, 4, 5⟩ 0).ret =
      apply id (fun _ l => l) ⟨[7, 8], 1, (1, 30), 2⟩ "none" :=
  recv_snapshot_original_forward_transformed id (fun _ l => l)
    { transform := "none", save_interval_s := 60,
      last_save_time := none, client_ip := none }
    ⟨[7, 8], 1, (1, 30), 2⟩ 0 ⟨2026, 1, 2, 3, 4, 5⟩ 0
    (snapshotPath none ⟨2026, 1, 2, 3, 4, 5⟩) [7, 8] (by rfl)

/-- C8 counterexample -- the source records, as the new last-save time, a
second `time.time()` reading taken after `cv2.imwrite` returns (server.py
line 102), not the reading tested against the interval (line 84): with the
tested reading 0 and the post-write reading 5, a capture happens and the
recorded last-save time is 5, not the tested 0. -/
theorem recv_records_tested_now_cex :
    (recv id (fun _ l => l) ⟨"none", 60, none, none⟩ ⟨[0], 0, (1, 30), 0⟩
      0 ⟨2026, 1, 2, 3, 4, 5⟩ 5).saved.isSome = true ∧
    (recv id (fun _ l => l) ⟨"none", 60, none, none⟩ ⟨[0], 0, (1, 30), 0⟩
      0 ⟨2026, 1, 2, 3, 4, 5⟩ 5).st.last_save_time = some 5 ∧
    (recv id (fun _ l => l) ⟨"none", 60, none, none⟩ ⟨[0], 0, (1, 30), 0⟩
      0 ⟨2026, 1, 2, 3, 4, 5⟩ 5).st.last_save_time ≠ some 0 := by
  refine ⟨rfl, rfl, by decide⟩

/-- C8 (amended) -- On every capture, the new last-save time is exactly the
post-write `time.time()` reading `tRecord` (which may be later than the
`now` value `tCheck` that was tested against the interval). -/
theorem recv_records_post_write_clock
    (cannyF : List Nat → List Nat) (rotateF : Int → List Nat → List Nat)
    (s : VideoTrackState) (frame : Frame) (tCheck : Int) (dtNow : DateTime)
    (tRecord : Int)
    (h : (recv cannyF rotateF s frame tCheck dtNow tRecord).saved.isSome =
      true) :
    (recv cannyF rotateF s frame tCheck dtNow tRecord).st.last_save_time =
      some tRecord := by
  cases hl : s.last_save_time with
  | none => simp [recv, hl]
  | some l =>
    by_cases hge : tCheck - l ≥ s.save_interval_s
    · simp [recv, hl, hge]
    · simp [recv, hl, hge] at h

/-- Witness for the amended C8 at concrete inputs. -/
theorem recv_records_post_write_clock_witness :
    (recv id (fun _ l => l) ⟨"none", 60, none, none⟩ ⟨[0], 0, (1, 30), 0⟩
      0 ⟨2026, 1, 2, 3, 4, 5⟩ 7).st.last_save_time = some 7 :=
  recv_records_post_write_clock id (fun _ l => l) ⟨"none", 60, none, none⟩
    ⟨[0], 0, (1, 30), 0⟩ 0 ⟨2026, 1, 2, 3, 4, 5⟩ 7 (by rfl)

/-- Zero-padded four-digit decimal field, the `YYYY` of the spec's claimed
`YYYYMMDD_HHMMSS` timestamp format. -/
def pad4 (n : Nat) : String :=
  if n < 10 then "000" ++ toString n
  else if n < 100 then "00" ++ toString n
  else if n < 1000 then "0" ++ toString n
  else toString n

/-- The snapshot path as the specification's words describe it (four-digit
year `YYYYMMDD_HHMMSS`), for comparison with the source's `snapshotPath`. -/
def specSnapshotPath (ip : Option String) (d : DateTime) : String :=
  data_dir ++ "/" ++
    ((match ip with
      | none => ""
      | some s => replaceDotDash s ++ "_") ++
     (pad4 d.year ++ pad2 d.month ++ pad2 d.day ++ "_" ++
      pad2 d.hour ++ pad2 d.minute ++ pad2 d.second) ++ ".jpg")

/-- C7 counterexample -- the source formats the timestamp with `%y`, a
two-digit year (server.py line 90), so at 2026-10-12 13:04:05 the written
filename is `data/1-2-3-4_261012_130405.jpg`, not the four-digit-year
`data/1-2-3-4_20261012_130405.jpg` the claim's `YYYYMMDD_HHMMSS` format
demands. -/
theorem snapshot_filename_year_cex :
    snapshotPath (some "1.2.3.4") ⟨2026, 10, 12, 13, 4, 5⟩ =
      "data/1-2-3-4_261012_130405.jpg" ∧
    specSnapshotPath (some "1.2.3.4") ⟨2026, 10, 12, 13, 4, 5⟩ =
      "data/1-2-3-4_20261012_130405.jpg" ∧
    snapshotPath (some "1.2.3.4") ⟨2026, 10, 12, 13, 4, 5⟩ ≠
      specSnapshotPath (some "1.2.3.4") ⟨2026, 10, 12, 13, 4, 5⟩ := by
  refine ⟨by decide, by decide, by decide⟩

/-- C7 (amended) -- Every snapshot write goes to the fixed output directory
(created if absent) under a filename made of the sanitized client address
(dots replaced with dashes, the segment omitted entirely when the address is
unknown) followed by a `YYMMDD_HHMMSS` timestamp (two-digit year) and the
fixed `.jpg` extension. -/
theorem snapshot_filename_format
    (cannyF : List Nat → List Nat) (rotateF : Int → List Nat → List Nat)
    (s : VideoTrackState) (frame : Frame) (tCheck : Int) (dtNow : DateTime)
    (tRecord : Int) (p : String) (img : List Nat) (fs : List String)
    (h : (recv cannyF rotateF s frame tCheck dtNow tRecord).saved =
      some (p, img)) :
    p = data_dir ++ "/" ++
      ((match s.client_ip with
        | none => ""
        | some a => replaceDotDash a ++ "_") ++
       (pad2 (dtNow.year % 100) ++ pad2 dtNow.month ++ pad2 dtNow.day ++
        "_" ++ pad2 dtNow.hour ++ pad2 dtNow.minute ++ pad2 dtNow.second) ++
       ".jpg") ∧
    data_dir ∈ ensureDataDir fs := by
  refine ⟨?_, ?_⟩
  · simp only [recv] at h
    split at h
    · rw [(((Prod.mk.injEq _ _ _ _).mp (Option.some.inj h)).1).symm]
      rfl
    · simp at h
  · by_cases hfs : data_dir ∈ fs
    · simp [ensureDataDir, hfs]
    · simp [ensureDataDir, hfs]

/-- Witness for the amended C7 at concrete inputs. -/
theorem snapshot_filename_format_witness :
    snapshotPath (some "1.2.3.4") ⟨2026, 10, 12, 13, 4, 5⟩ =
      data_dir ++ "/" ++
        ((match (some "1.2.3.4" : Option String) with
          | none => ""
          | some a => replaceDotDash a ++ "_") ++
         (pad2 (2026 % 100) ++ pad2 10 ++ pad2 12 ++ "_" ++
          pad2 13 ++ pad2 4 ++ pad2 5) ++ ".jpg") :=
  (snapshot_filename_format id (fun _ l => l)
    ⟨"none", 60, none, some "1.2.3.4"⟩ ⟨[0], 0, (1, 30), 0⟩ 0
    ⟨2026, 10, 12, 13, 4, 5⟩ 0
    (snapshotPath (some "1.2.3.4") ⟨2026, 10, 12, 13, 4, 5⟩) [0] []
    (by rfl)).1

/-- A message arriving on the data channel: Python distinguishes `str` and
`bytes` payloads with `isinstance(message, str)`. Message text is modelled
as its character list. -/
inductive DCMessage where
  | str (s : List Char)
  | bytes (b : List Nat)
  deriving Repr, DecidableEq

/-- The data-channel message handler (server.py lines 133-137): on a string
message starting with `"ping"`, send `"pong"` followed by the message's
remainder after the first four characters (`message[4:]`) back on the same
channel; otherwise send nothing. Returns the message sent, if any. -/
def on_message : DCMessage → Option (List Char)
  | .str m =>
    if m.take 4 = "ping".toList then some ("pong".toList ++ m.drop 4)
    else none
  | .bytes _ => none

/-- C6 -- A string message that begins with `"ping"` is answered on the same
channel by `"pong"` concatenated with the remainder of the message after the
prefix; a string message not beginning with `"ping"`, and any bytes message,
produces no response and no error; in particular `"ping-42"` yields
`"pong-42"` and `"hello"` yields nothing. -/
theorem on_message_ping_pong :
    (∀ r : List Char,
      on_message (.str ("ping".toList ++ r)) = some ("pong".toList ++ r)) ∧
    (∀ m : List Char, m.take 4 ≠ "ping".toList →
      on_message (.str m) = none) ∧
    (∀ b : List Nat, on_message (.bytes b) = none) ∧
    on_message (.str "ping-42".toList) = some "pong-42".toList ∧
    on_message (.str "hello".toList) = none := by
  refine ⟨?_, ?_, ?_, by decide, by decide⟩
  · intro r
    rfl
  · intro m hm
    simp only [on_message]
    rw [if_neg hm]
  · intro b
    rfl

/-- Witness for C6 at a concrete non-ping message. -/
theorem on_message_ping_pong_witness :
    "hello".toList.take 4 ≠ "ping".toList ∧
    on_message (.str "hello".toList) = none :=
  ⟨by decide, on_message_ping_pong.2.1 "hello".toList (by decide)⟩

/-- The parsed JSON body of a `POST /offer` request; each field is `none`
when the key is absent from the payload. The handler reads `params['sdp']`
and `params['type']` (server.py line 118) and, later, per received track,
`params['video_transform']` (server.py line 152). -/
structure OfferParams where
  sdp : Option String
  type : Option String
  video_transform : Option String
  deriving Repr, DecidableEq

/-- Errors that can escape the `offer` handler. `badRequest` is the
specification's client-error class; the source never raises it. `keyError`
is a Python `KeyError` from a missing payload key, which leaves the handler
uncaught. `negotiationError` stands for an exception raised by
`setRemoteDescription`, `createAnswer` or `setLocalDescription`. -/
inductive OfferError where
  | badRequest
  | keyError (key : String)
  | negotiationError
  deriving Repr, DecidableEq

/-- Environment of one `offer` call: the outcomes of the three awaited
negotiation steps of the external WebRTC library (server.py lines 159-165)
and the local description the library settles on when they all succeed. -/
structure NegotiationEnv where
  setRemoteOk : Bool
  createAnswerOk : Bool
  setLocalOk : Bool
  localSdp : String
  localType : String
  deriving Repr, DecidableEq

/-- Result of one `offer` call: the HTTP-level outcome (answer payload
`(sdp, type)` or the escaping error) and the process-wide `pcs` registry
(the set of live peer connections, as the list of their ids) afterwards. -/
structure OfferOutcome where
  result : Except OfferError (String × String)
  pcs : List Nat
  deriving Repr

/-- The `offer` signaling handler (server.py lines 117-174) acting on the
module-level `pcs` registry. `pcId` is the identity `uuid.uuid4()` gives the
new connection. The order follows the source: read `params['sdp']` then
`params['type']` (a missing key raises `KeyError` before anything else
happens), create the connection and add it to `pcs`, register the event
handlers, then run `setRemoteDescription`, `createAnswer` and
`setLocalDescription`; a failure in any of these escapes the handler with
the registry still holding the new connection. -/
def offer (params : OfferParams) (pcId : Nat) (env : NegotiationEnv)
    (pcs : List Nat) : OfferOutcome :=
  match params.sdp with
  | none => { result := .error (.keyError "sdp"), pcs := pcs }
  | some _ =>
    match params.type with
    | none => { result := .error (.keyError "type"), pcs := pcs }
    | some _ =>
      let pcs1 := pcId :: pcs
      if env.setRemoteOk then
        if env.createAnswerOk then
          if env.setLocalOk then
            { result := .ok (env.localSdp, env.localType), pcs := pcs1 }
          else { result := .error .negotiationError, pcs := pcs1 }
        else { result := .error .negotiationError, pcs := pcs1 }
      else { result := .error .negotiationError, pcs := pcs1 }

/-- C1 counterexample -- when negotiation fails on a well-formed payload,
the error is surfaced to the signaling caller, but the failed connection is
still in the `pcs` registry afterwards (it was added before negotiation and
nothing removes it on failure), contradicting the claim that the registry
contains no failed session. -/
theorem offer_failed_session_stays_registered_cex :
    (offer ⟨some "v=0", some "offer", some "none"⟩ 7
      ⟨false, true, true, "", ""⟩ []).result = .error .negotiationError ∧
    7 ∈ (offer ⟨some "v=0", some "offer", some "none"⟩ 7
      ⟨false, true, true, "", ""⟩ []).pcs := by
  refine ⟨rfl, by decide⟩

/-- C1 (amended) -- If negotiation fails during the offer handling (any of
the remote-description application, answer creation or local-description
application fails), the error is surfaced to the signaling caller, but the
session remains registered: the registry still contains the failed
connection afterwards (it is only removed later, on ICE failure or at
shutdown). -/
theorem offer_negotiation_failure
    (params : OfferParams) (sdp ty : String) (pcId : Nat)
    (env : NegotiationEnv) (pcs : List Nat)
    (hsdp : params.sdp = some sdp) (hty : params.type = some ty)
    (hfail : env.setRemoteOk = false ∨ env.createAnswerOk = false ∨
      env.setLocalOk = false) :
    (offer params pcId env pcs).result = .error .negotiationError ∧
    pcId ∈ (offer params pcId env pcs).pcs := by
  cases hr : env.setRemoteOk with
  | false => simp [offer, hsdp, hty, hr]
  | true =>
    cases ha : env.createAnswerOk with
    | false => simp [offer, hsdp, hty, hr, ha]
    | true =>
      cases hl : env.setLocalOk with
      | false => simp [offer, hsdp, hty, hr, ha, hl]
      | true => rcases hfail with hf | hf | hf <;> simp_all

/-- Witness for the amended C1 at concrete inputs. -/
theorem offer_negotiation_failure_witness :
    (offer ⟨some "v=0", some "offer", some "edges"⟩ 3
      ⟨true, false, true, "", ""⟩ [9]).result = .error .negotiationError ∧
    3 ∈ (offer ⟨some "v=0", some "offer", some "edges"⟩ 3
      ⟨true, false, true, "", ""⟩ [9]).pcs :=
  offer_negotiation_failure ⟨some "v=0", some "offer", some "edges"⟩
    "v=0" "offer" 3 ⟨true, false, true, "", ""⟩ [9] rfl rfl
    (Or.inr (Or.inl rfl))

/-- C9 counterexample -- a payload missing the `sdp` field makes the
handler raise an uncaught `KeyError` (server.py line 118), which is not the
`badRequest` client-error class the claim names (an uncaught exception is
reported by the HTTP layer as an internal server error); the registry is
unchanged, since the connection is only created after the fields are read. -/
theorem offer_malformed_not_badRequest_cex :
    (offer ⟨none, some "offer", some "none"⟩ 7 ⟨true, true, true, "a", "answer"⟩
      []).result = .error (.keyError "sdp") ∧
    (offer ⟨none, some "offer", some "none"⟩ 7 ⟨true, true, true, "a", "answer"⟩
      []).result ≠ .error .badRequest ∧
    (offer ⟨none, some "offer", some "none"⟩ 7 ⟨true, true, true, "a", "answer"⟩
      []).pcs = [] := by
  refine ⟨rfl, ?_, rfl⟩
  intro h
  simp only [offer] at h
  exact absurd (Except.error.inj h) (by simp)

/-- C9 (amended) -- For every offer request whose payload is missing the
`sdp` or `type` field, the handler fails with an uncaught `KeyError` (not a
`BadRequest` client error) and no session is created or registered: the
registry is unchanged by the failed request. -/
theorem offer_malformed_no_session
    (params : OfferParams) (pcId : Nat) (env : NegotiationEnv)
    (pcs : List Nat)
    (h : params.sdp = none ∨ params.type = none) :
    (∃ k, (offer params pcId env pcs).result = .error (.keyError k)) ∧
    (offer params pcId env pcs).pcs = pcs := by
  obtain ⟨s, t, v⟩ := params
  rcases h with h | h
  · simp only at h
    subst h
    exact ⟨⟨"sdp", rfl⟩, rfl⟩
  · simp only at h
    subst h
    cases s with
    | none => exact ⟨⟨"sdp", rfl⟩, rfl⟩
    | some s => exact ⟨⟨"type", rfl⟩, rfl⟩

/-- Witness for the amended C9 at concrete inputs. -/
theorem offer_malformed_no_session_witness :
    (∃ k, (offer ⟨some "v=0", none, some "none"⟩ 7
      ⟨true, true, true, "a", "answer"⟩ [4]).result = .error (.keyError k)) ∧
    (offer ⟨some "v=0", none, some "none"⟩ 7
      ⟨true, true, true, "a", "answer"⟩ [4]).pcs = [4] :=
  offer_malformed_no_session ⟨some "v=0", none, some "none"⟩ 7
    ⟨true, true, true, "a", "answer"⟩ [4] (Or.inr rfl)

/-- Outcome of the `on_track` handler for one received track. -/
inductive TrackResult where
  | assertionError
  | keyError (key : String)
  | added (proc : VideoTrackState)
  deriving Repr, DecidableEq

/-- The `on_track` handler (server.py lines 147-156): assert the received
track's kind is `'video'` (an `AssertionError` escapes otherwise), then
construct one `VideoTrack` with the transform read from the offer payload
(`params['video_transform']`, a `KeyError` if absent), the default save
interval, no prior save, and the request's remote address, and add it to the
connection. -/
def on_track (params : OfferParams) (remote : Option String)
    (trackKind : String) : TrackResult :=
  if trackKind = "video" then
    match params.video_transform with
    | none => .keyError "video_transform"
    | some t =>
      .added { transform := t, save_interval_s := 60,
               last_save_time := none, client_ip := remote }
  else .assertionError

/-- C10 -- For every track delivered to the track handler: if the track's
kind is not `"video"` the handler fails the assertion; if the kind is
`"video"` and the offer payload carries a transform selector, exactly one
track processor with that selector (and the session's client address) is
created and added to the connection. -/
theorem on_track_video_assertion
    (params : OfferParams) (remote : Option String) (trackKind : String)
    (t : String) :
    (trackKind ≠ "video" →
      on_track params remote trackKind = .assertionError) ∧
    (trackKind = "video" → params.video_transform = some t →
      on_track params remote trackKind =
        .added { transform := t, save_interval_s := 60,
                 last_save_time := none, client_ip := remote }) := by
  constructor
  · intro h
    simp [on_track, h]
  · intro h hv
    simp [on_track, h, hv]

/-- Witness for C10 at concrete inputs: an audio track trips the assertion
and a video track adds one processor carrying the payload's selector. -/
theorem on_track_video_assertion_witness :
    on_track ⟨some "v=0", some "offer", some "edges"⟩ (some "1.2.3.4")
      "audio" = .assertionError ∧
    on_track ⟨some "v=0", some "offer", some "edges"⟩ (some "1.2.3.4")
      "video" = .added { transform := "edges", save_interval_s := 60,
                         last_save_time := none,
                         client_ip := some "1.2.3.4" } :=
  ⟨(on_track_video_assertion ⟨some "v=0", some "offer", some "edges"⟩
      (some "1.2.3.4") "audio" "edges").1 (by decide),
   (on_track_video_assertion ⟨some "v=0", some "offer", some "edges"⟩
      (some "1.2.3.4") "video" "edges").2 rfl rfl⟩
